import Mathlib

/-!
Verification of the network connection manager in
src/Projects/B-U585I-IOT02A/tz_disabled/Src/app_main.c against its
natural-language specification.

The embedding models FreeRTOS task-notification words as natural numbers
used as bit masks, with the bitwise operators of Nat.  A task notification
slot (one index of a FreeRTOS task) is a pair of the 32-bit notification
value and the pending ("notification received") state bit, which is what
xTaskNotifyIndexed and xTaskNotifyWaitIndexed manipulate.
-/

namespace NetMgr

/-- Notification flag bits, from the defines at the top of app_main.c. -/
def NET_LWIP_READY_BIT : Nat := 0x1

/-- Bit signalling an IP address change, define NET_LWIP_IP_CHANGE_BIT. -/
def NET_LWIP_IP_CHANGE_BIT : Nat := 0x2

/-- Bit signalling the interface went administratively up. -/
def NET_LWIP_IFUP_BIT : Nat := 0x4

/-- Bit signalling the interface went administratively down. -/
def NET_LWIP_IFDOWN_BIT : Nat := 0x8

/-- Bit signalling the link went up. -/
def NET_LWIP_LINK_UP_BIT : Nat := 0x10

/-- Bit signalling the link went down. -/
def NET_LWIP_LINK_DOWN_BIT : Nat := 0x20

/-- Bit signalling a cached co-processor status update. -/
def MX_STATUS_UPDATE_BIT : Nat := 0x40

/-- Bit set by net_request_reconnect. -/
def ASYNC_REQUEST_RECONNECT_BIT : Nat := 0x80

/-- Clearing of a set of mask bits from a value: v AND (NOT m).  Expressed
over Nat as v XOR (v AND m), which agrees bitwise. -/
def clearBits (v m : Nat) : Nat := v ^^^ (v &&& m)

/-- One task-notification slot: the 32-bit notification value together with
the pending state (ucNotifyState equal to taskNOTIFICATION_RECEIVED). -/
structure TaskNotify where
  val : Nat
  received : Bool
deriving Repr, DecidableEq

/-- Model of xTaskNotifyIndexed with action eSetBits: ORs the bits into the
notification value and marks the notification pending.  Never blocks. -/
def xTaskNotifyIndexed_eSetBits (s : TaskNotify) (bits : Nat) : TaskNotify :=
  { val := s.val ||| bits, received := true }

/-- Model of xTaskNotifyIndexed with action eNoAction (the self-notify at
the end of ulWaitForNotifyBits): leaves the value untouched and marks the
notification pending, so the next wait returns immediately. -/
def xTaskNotifyIndexed_eNoAction (s : TaskNotify) : TaskNotify :=
  { s with received := true }

/-- One wake-up of the inner xTaskNotifyWaitIndexed call of the wait loop
in ulWaitForNotifyBits.  A notif wake returns a notification (the bits
argument holds whatever producers ORed in before the wake, possibly zero
when the slot was already pending); deadlineHit records the result of the
xTaskCheckForTimeOut call made right after the wake.  A timeout wake is an
inner wait that expired with nothing pending, which forces the subsequent
xTaskCheckForTimeOut to report expiry as well. -/
inductive Wake where
  | notif (bits : Nat) (deadlineHit : Bool)
  | timeout
deriving Repr, DecidableEq

/-- The while loop of ulWaitForNotifyBits (app_main.c lines 306 to 328),
driven by the trace of wake-ups.  Each notif wake returns the value
val OR bits, clears only the target bits from the slot (the clear-on-exit
argument of xTaskNotifyWaitIndexed is ulTargetBits), accumulates the
observed value when positive, and exits when xTaskCheckForTimeOut fires.
A timeout wake copies the value without clearing and exits.  An exhausted
trace stands for a deadline expiry with no further wake.  Returns the
final accumulator, the slot state and whether the loop exited by timeout
rather than by satisfying the full target mask. -/
def waitLoop (target : Nat) (wakes : List Wake) (s : TaskNotify) (accum : Nat) :
    Nat × TaskNotify × Bool :=
  if accum &&& target = target then (accum, s, false)
  else
    match wakes with
    | [] => (accum, s, true)
    | Wake.notif bits true :: _ =>
      let v := s.val ||| bits
      (if v > 0 then accum ||| v else accum, ⟨clearBits v target, false⟩, true)
    | Wake.notif bits false :: rest =>
      let v := s.val ||| bits
      waitLoop target rest ⟨clearBits v target, false⟩ (if v > 0 then accum ||| v else accum)
    | Wake.timeout :: _ =>
      (if s.val > 0 then accum ||| s.val else accum, s, true)

/-- Result of one call to ulWaitForNotifyBits: the returned word, the
notification slot left behind (including the effect of the self-notify),
whether the wait timed out, and the final value of the local accumulator
ulNotifyValueAccumulate. -/
structure WaitOutcome where
  ret : Nat
  state : TaskNotify
  timedOut : Bool
  accum : Nat
deriving Repr, DecidableEq

/-- Model of ulWaitForNotifyBits (app_main.c lines 295 to 340): run the
wait loop starting from a zero accumulator, then, if the accumulator holds
any bit outside the target mask, self-notify with eNoAction so those bits
are not lost, and return the target mask intersected with the
accumulator. -/
def ulWaitForNotifyBits (target : Nat) (wakes : List Wake) (s : TaskNotify) :
    WaitOutcome :=
  let r := waitLoop target wakes s 0
  let accum := r.1
  let s1 := r.2.1
  let s2 := if clearBits accum target > 0 then xTaskNotifyIndexed_eNoAction s1 else s1
  ⟨target &&& accum, s2, r.2.2, accum⟩

/-- Status values of the co-processor status enumeration MxStatus_t.  The
header mx_prv.h defining the enumeration is not part of the repository
slice; the numeric values are modelled from the spec (section 3) and from
the uses in app_main.c: the order None, StationDown, StationUp,
StationGotIp, ApDown, ApUp matches pcMxStatusToString, and the
comparisons against MX_STATUS_STA_UP in xConnectToAP and net_main treat
StationUp and above as link-usable. -/
def MX_STATUS_NONE : Nat := 0

/-- Status value for station down. -/
def MX_STATUS_STA_DOWN : Nat := 1

/-- Status value for station up. -/
def MX_STATUS_STA_UP : Nat := 2

/-- Status value for station got IP. -/
def MX_STATUS_STA_GOT_IP : Nat := 3

/-- Status value for access-point down. -/
def MX_STATUS_AP_DOWN : Nat := 4

/-- Status value for access-point up. -/
def MX_STATUS_AP_UP : Nat := 5

/-- Success value of the co-processor transport result type IPCError_t. -/
def IPC_SUCCESS : Nat := 0

/-- Membership of a status value in the six recognized MxStatus_t values. -/
def isRecognizedMxStatus (status : Nat) : Prop :=
  status = MX_STATUS_NONE ∨ status = MX_STATUS_STA_DOWN ∨ status = MX_STATUS_STA_UP ∨
  status = MX_STATUS_STA_GOT_IP ∨ status = MX_STATUS_AP_DOWN ∨ status = MX_STATUS_AP_UP

instance (status : Nat) : Decidable (isRecognizedMxStatus status) := by
  unfold isRecognizedMxStatus
  infer_instance

/-- Administrative action vHandleMxStatusUpdate applies to the interface
link: netifapi_netif_set_link_up or netifapi_netif_set_link_down. -/
inductive LinkAction where
  | up
  | down
deriving Repr, DecidableEq

/-- Observable outcome of vHandleMxStatusUpdate: the link action applied
to the interface and whether a warning was logged. -/
structure StatusUpdateResult where
  action : LinkAction
  warned : Bool
deriving Repr, DecidableEq

/-- Model of vHandleMxStatusUpdate (app_main.c lines 503 to 525): a switch
on the cached status.  StationUp, StationGotIp and ApUp set the link up;
None, StationDown and ApDown set the link down; the default case logs a
warning (the source passes the out-of-scope name xCtx.xStatus to LogWarn,
which only affects the text printed) and fail-safes to setting the link
up. -/
def vHandleMxStatusUpdate (status : Nat) : StatusUpdateResult :=
  if status = MX_STATUS_STA_UP ∨ status = MX_STATUS_STA_GOT_IP ∨
      status = MX_STATUS_AP_UP then
    ⟨LinkAction.up, false⟩
  else if status = MX_STATUS_NONE ∨ status = MX_STATUS_STA_DOWN ∨
      status = MX_STATUS_AP_DOWN then
    ⟨LinkAction.down, false⟩
  else
    ⟨LinkAction.up, true⟩

/-- Model of vMxStatusNotify (app_main.c lines 388 to 402), the Status
Bridge callback: writes the new status into the shared field and sets
MX_STATUS_UPDATE_BIT on the net task notification slot. -/
def vMxStatusNotify (newStatus : Nat) (slot : TaskNotify) : Nat × TaskNotify :=
  (newStatus, xTaskNotifyIndexed_eSetBits slot MX_STATUS_UPDATE_BIT)

/-- Loop-local state of net_main involved in status handling: the cached
status xCtx.xStatus and the local variable xLastMxStatus. -/
structure StatusLoopState where
  status : Nat
  lastMxStatus : Nat
deriving Repr, DecidableEq

/-- Model of the StatusUpdated handling at the top of a net_main loop
iteration (app_main.c lines 733 to 740): when the wake value is nonzero,
carries MX_STATUS_UPDATE_BIT and the cached status differs from
xLastMxStatus, vHandleMxStatusUpdate is invoked (the returned Bool).  The
source never assigns xLastMxStatus after its initialization at line 714,
so the state is returned unchanged. -/
def statusUpdateStep (xResult : Nat) (st : StatusLoopState) : Bool × StatusLoopState :=
  if xResult ≠ 0 ∧ xResult &&& MX_STATUS_UPDATE_BIT ≠ 0 ∧
      st.status ≠ st.lastMxStatus then
    (true, st)
  else
    (false, st)

/-- Keys of the two configuration-store entries read by xConnectToAP. -/
inductive ConfigKey where
  | wifiPreferredApSSID
  | wifiPreferredApCredentials
deriving Repr, DecidableEq

/-- Externally visible operations issued by the Connection Controller and
the reconnect branch: co-processor transport calls, configuration reads
and the bounded station-up wait. -/
inductive TransportOp where
  | setBypassMode
  | configRead (key : ConfigKey)
  | connectAP (ssid psk : Option Nat)
  | waitForStaUp
  | disconnect
deriving Repr, DecidableEq

/-- Environment of one xConnectToAP call: results supplied by the
collaborators that live outside the repository slice (the configuration
store and the co-processor transport, entry data abstracted to optional
handles), plus the value the shared status field holds when the bounded
station-up wait returns, that field being written only by the concurrent
vMxStatusNotify callback. -/
structure ConnectEnv where
  setModeErr : Nat
  ssid : Option Nat
  psk : Option Nat
  connectErr : Nat
  statusAfterWait : Nat
deriving Repr, DecidableEq

/-- Observable outcome of one xConnectToAP call: the returned value of
the comparison status at least StationUp, the final value of the shared
status field, and the transport operations issued. -/
structure ConnectOutcome where
  ret : Bool
  status : Nat
  calls : List TransportOp
deriving Repr, DecidableEq

/-- Model of xConnectToAP (app_main.c lines 468 to 495).  Only when the
cached status is None or StationDown does it set station bypass mode (the
result of which is ORed into xErr and then overwritten, as in the
source), read the SSID and credentials from the configuration store, and
issue mx_Connect; on transport failure it logs and skips the wait; on
transport success it blocks on the bounded station-up wait (the source
spells that call waitForMxStatus, an undeclared name whose evident
referent is xWaitForMxStatus; the wait only reads the status field).
Returns the comparison of the final status against MX_STATUS_STA_UP. -/
def xConnectToAP (status : Nat) (env : ConnectEnv) : ConnectOutcome :=
  if status = MX_STATUS_NONE ∨ status = MX_STATUS_STA_DOWN then
    let xErr := IPC_SUCCESS ||| env.setModeErr
    let pcSSID := env.ssid
    let pcPSK := env.psk
    let xErr := env.connectErr
    if xErr ≠ IPC_SUCCESS then
      ⟨decide (status ≥ MX_STATUS_STA_UP), status,
        [TransportOp.setBypassMode,
         TransportOp.configRead ConfigKey.wifiPreferredApSSID,
         TransportOp.configRead ConfigKey.wifiPreferredApCredentials,
         TransportOp.connectAP pcSSID pcPSK]⟩
    else
      ⟨decide (env.statusAfterWait ≥ MX_STATUS_STA_UP), env.statusAfterWait,
        [TransportOp.setBypassMode,
         TransportOp.configRead ConfigKey.wifiPreferredApSSID,
         TransportOp.configRead ConfigKey.wifiPreferredApCredentials,
         TransportOp.connectAP pcSSID pcPSK, TransportOp.waitForStaUp]⟩
  else
    ⟨decide (status ≥ MX_STATUS_STA_UP), status, []⟩

/-- Model of net_request_reconnect (app_main.c lines 372 to 383): when the
net task handle has been published, OR the reconnect bit into its
notification slot and report success; otherwise report failure. -/
def net_request_reconnect (handle : Option TaskNotify) : Bool × Option TaskNotify :=
  match handle with
  | none => (false, none)
  | some s => (true, some (xTaskNotifyIndexed_eSetBits s ASYNC_REQUEST_RECONNECT_BIT))

/-- Model of the reconnect branch of a net_main loop iteration
(app_main.c lines 780 to 785): when the wake value carries
ASYNC_REQUEST_RECONNECT_BIT, issue a bounded best-effort mx_Disconnect
and then call xConnectToAP with the current cached status.  Returns the
resulting status field and the transport operations issued. -/
def reconnectStep (xResult : Nat) (status : Nat) (env : ConnectEnv) :
    Nat × List TransportOp :=
  if xResult &&& ASYNC_REQUEST_RECONNECT_BIT ≠ 0 then
    let c := xConnectToAP status env
    (c.status, TransportOp.disconnect :: c.calls)
  else
    (status, [])

/-- Interface flag constants NETIF_FLAG_UP and NETIF_FLAG_LINK_UP of the
lwip header netif.h, which is outside the repository slice; the values
are those of lwip 2.x, and only their being distinct single bits
matters. -/
def NETIF_FLAG_UP : Nat := 0x01

/-- Link-up flag bit of the lwip interface flags. -/
def NETIF_FLAG_LINK_UP : Nat := 0x04

/-- Last-observed state remembered by vLwipStatusCallback between
invocations: the static locals xLastAddr and xLastFlags. -/
structure LwipCbState where
  lastAddr : Nat
  lastFlags : Nat
deriving Repr, DecidableEq

/-- Model of vLwipStatusCallback (app_main.c lines 406 to 453), applied
to the current interface flags and IP address.  Returns the notification
value it emits (zero meaning no xTaskNotifyIndexed call is made) and the
static state left behind.  The source assigns xLastAddr.addr = 0 at every
entry, before the address comparison, so the comparison is against zero
and not against the address stored by the previous invocation; the model
keeps that assignment. -/
def vLwipStatusCallback (flags addr : Nat) (st : LwipCbState) : Nat × LwipCbState :=
  let lastAddrAddr := 0
  let v1 :=
    if (flags ^^^ st.lastFlags) &&& NETIF_FLAG_UP ≠ 0 then
      if flags &&& NETIF_FLAG_UP ≠ 0 then NET_LWIP_IFUP_BIT else NET_LWIP_IFDOWN_BIT
    else if (flags ^^^ st.lastFlags) &&& NETIF_FLAG_LINK_UP ≠ 0 then
      if flags &&& NETIF_FLAG_LINK_UP ≠ 0 then NET_LWIP_LINK_UP_BIT
      else NET_LWIP_LINK_DOWN_BIT
    else 0
  let v2 := if addr ≠ lastAddrAddr then v1 ||| NET_LWIP_IP_CHANGE_BIT else v1
  (v2, ⟨addr, flags⟩)

/-- Interface and address-acquisition state acted on by the
reconciliation pass of the net_main loop: whether the interface link is
flagged up (NETIF_FLAG_LINK_UP), whether an IP address is assigned
(ip_addr nonzero), and whether DHCP address acquisition is running. -/
structure IfaceState where
  linkFlagUp : Bool
  addrAssigned : Bool
  dhcpActive : Bool
deriving Repr, DecidableEq

/-- Modelled from the spec: the reconciliation pass of section 4.5 step 4
and section 8, which claim C3 sources to app_main.c lines 747 to 778.
That region of net_main is not well-formed C, so the literal source has
no semantics to embed: the guard ( xResult & vHandleMxStatusUpdate )
applies bitwise AND to a function pointer, the wake call names an
undeclared waitForNotification, and the conditional nesting around the
chain is unbalanced; the spec (section 9, first open question) declares
the reconstructed policy authoritative.  Link flagged down with an
address still assigned releases the address and stops acquisition
(netifapi_dhcp_release_and_stop); link flagged up without an address
starts acquisition (netifapi_dhcp_start); otherwise the pass leaves the
state alone.  The pass never changes the link flag itself. -/
def reconcilePass (st : IfaceState) : IfaceState :=
  if ¬ st.linkFlagUp ∧ st.addrAssigned then
    { st with addrAssigned := false, dhcpActive := false }
  else if st.linkFlagUp ∧ ¬ st.addrAssigned then
    { st with dhcpActive := true }
  else
    st

/-- Bitwise description of clearBits. -/
lemma clearBits_testBit (v m i : Nat) :
    (clearBits v m).testBit i = (v.testBit i && !(m.testBit i)) := by
  simp only [clearBits, Nat.testBit_xor, Nat.testBit_and]
  cases v.testBit i <;> cases m.testBit i <;> rfl

/-- Commutativity of Nat bitwise and. -/
lemma land_comm (a b : Nat) : a &&& b = b &&& a := by
  apply Nat.eq_of_testBit_eq
  intro i
  simp only [Nat.testBit_and]
  cases a.testBit i <;> cases b.testBit i <;> rfl

/-- Mask inclusion a AND b equal to a says every bit of a is a bit of b. -/
lemma land_eq_left_iff (a b : Nat) :
    a &&& b = a ↔ ∀ i, a.testBit i = true → b.testBit i = true := by
  constructor
  · intro h i hi
    have h2 := congrArg (fun x => Nat.testBit x i) h
    simp only [Nat.testBit_and] at h2
    rw [hi] at h2
    simpa using h2
  · intro h
    apply Nat.eq_of_testBit_eq
    intro i
    simp only [Nat.testBit_and]
    cases hai : a.testBit i
    · rfl
    · simp [h i hai]

/-- When the accumulator already covers the target mask the loop exits at
once, reporting success. -/
lemma waitLoop_of_full (target : Nat) (wakes : List Wake) (s : TaskNotify) (accum : Nat)
    (hc : accum &&& target = target) :
    waitLoop target wakes s accum = (accum, s, false) := by
  cases wakes with
  | nil => simp [waitLoop, hc]
  | cons w rest =>
    cases w with
    | notif bits dl => cases dl <;> simp [waitLoop, hc]
    | timeout => simp [waitLoop, hc]

/-- When the wait loop exits other than through the deadline, the final
accumulator covers the whole target mask. -/
lemma waitLoop_full_of_not_timedOut (target : Nat) :
    ∀ (wakes : List Wake) (s : TaskNotify) (accum : Nat),
      (waitLoop target wakes s accum).2.2 = false →
      (waitLoop target wakes s accum).1 &&& target = target := by
  intro wakes
  induction wakes with
  | nil =>
    intro s accum h
    by_cases hc : accum &&& target = target
    · simp [waitLoop, hc]
    · simp [waitLoop, hc] at h
  | cons w rest ih =>
    intro s accum h
    by_cases hc : accum &&& target = target
    · rw [waitLoop_of_full target _ s accum hc]
      exact hc
    · cases w with
      | notif bits dl =>
        cases dl with
        | true => simp [waitLoop, hc] at h
        | false =>
          rw [waitLoop] at h ⊢
          simp only [if_neg hc] at h ⊢
          exact ih _ _ h
      | timeout => simp [waitLoop, hc] at h

/-- Bits outside the target mask are never cleared by the wait loop: any
such bit pending at entry, and any such bit ever accumulated, is still in
the notification value when the loop returns. -/
lemma waitLoop_out_bits (target : Nat) :
    ∀ (wakes : List Wake) (s : TaskNotify) (accum : Nat),
      (∀ j, target.testBit j = false → accum.testBit j = true →
        s.val.testBit j = true) →
      ∀ i, target.testBit i = false →
        ((waitLoop target wakes s accum).1.testBit i = true →
          (waitLoop target wakes s accum).2.1.val.testBit i = true) ∧
        (s.val.testBit i = true →
          (waitLoop target wakes s accum).2.1.val.testBit i = true) := by
  intro wakes
  induction wakes with
  | nil =>
    intro s accum hinv i hti
    by_cases hc : accum &&& target = target
    · simp only [waitLoop, if_pos hc]
      exact ⟨hinv i hti, fun h => h⟩
    · simp only [waitLoop, if_neg hc]
      exact ⟨hinv i hti, fun h => h⟩
  | cons w rest ih =>
    intro s accum hinv i hti
    by_cases hc : accum &&& target = target
    · rw [waitLoop_of_full target _ s accum hc]
      exact ⟨hinv i hti, fun h => h⟩
    · cases w with
      | notif bits dl =>
        have hv : ∀ j, s.val.testBit j = true → (s.val ||| bits).testBit j = true := by
          intro j hj
          simp [Nat.testBit_or, hj]
        have hacc1 : ∀ j, target.testBit j = false →
            (if s.val ||| bits > 0 then accum ||| (s.val ||| bits) else accum).testBit j = true →
            (clearBits (s.val ||| bits) target).testBit j = true := by
          intro j htj hj
          rw [clearBits_testBit, htj]
          by_cases hpos : s.val ||| bits > 0
          · rw [if_pos hpos] at hj
            simp only [Nat.testBit_or] at hj
            rcases Bool.or_eq_true_iff.mp hj with h1 | h1
            · have := hv j (hinv j htj h1)
              simp [this]
            · simp [h1]
          · rw [if_neg hpos] at hj
            have := hv j (hinv j htj hj)
            simp [this]
        cases dl with
        | true =>
          rw [waitLoop]
          simp only [if_neg hc]
          constructor
          · exact hacc1 i hti
          · intro hs
            rw [clearBits_testBit, hti]
            simp [hv i hs]
        | false =>
          rw [waitLoop]
          simp only [if_neg hc]
          have hinv1 : ∀ j, target.testBit j = false →
              (if s.val ||| bits > 0 then accum ||| (s.val ||| bits) else accum).testBit j = true →
              (TaskNotify.mk (clearBits (s.val ||| bits) target) false).val.testBit j = true := by
            intro j htj hj
            exact hacc1 j htj hj
          have hih := ih ⟨clearBits (s.val ||| bits) target, false⟩ _ hinv1 i hti
          constructor
          · exact hih.1
          · intro hs
            apply hih.2
            rw [clearBits_testBit, hti]
            simp [hv i hs]
      | timeout =>
        rw [waitLoop]
        simp only [if_neg hc]
        constructor
        · intro hj
          by_cases hpos : s.val > 0
          · rw [if_pos hpos] at hj
            simp only [Nat.testBit_or] at hj
            rcases Bool.or_eq_true_iff.mp hj with h1 | h1
            · exact hinv i hti h1
            · exact h1
          · rw [if_neg hpos] at hj
            exact hinv i hti hj
        · exact fun h => h

/-- C1: every call ulWaitForNotifyBits(consumer, targetMask, deadline)
returns the intersection of targetMask with the bits accumulated across
wake-ups; the result is a subset of targetMask, equals the full mask
exactly when every bit of the mask was observed before the deadline, and
is zero exactly when the wait timed out having observed no bit of the
mask (every call site of the program supplies a nonzero mask, which the
hypothesis records). -/
theorem ulWaitForNotifyBits_C1 (target : Nat) (wakes : List Wake) (s : TaskNotify)
    (htarget : target ≠ 0) :
    (ulWaitForNotifyBits target wakes s).ret &&& target =
      (ulWaitForNotifyBits target wakes s).ret ∧
    (ulWaitForNotifyBits target wakes s).ret =
      target &&& (ulWaitForNotifyBits target wakes s).accum ∧
    ((ulWaitForNotifyBits target wakes s).ret = target ↔
      target &&& (ulWaitForNotifyBits target wakes s).accum = target) ∧
    ((ulWaitForNotifyBits target wakes s).timedOut = false →
      (ulWaitForNotifyBits target wakes s).ret = target) ∧
    ((ulWaitForNotifyBits target wakes s).ret = 0 ↔
      (ulWaitForNotifyBits target wakes s).timedOut = true ∧
        target &&& (ulWaitForNotifyBits target wakes s).accum = 0) := by
  have hret : (ulWaitForNotifyBits target wakes s).ret
      = target &&& (waitLoop target wakes s 0).1 := rfl
  have haccum : (ulWaitForNotifyBits target wakes s).accum
      = (waitLoop target wakes s 0).1 := rfl
  have htimed : (ulWaitForNotifyBits target wakes s).timedOut
      = (waitLoop target wakes s 0).2.2 := rfl
  refine ⟨?_, ?_, ?_, ?_, ?_, ?_⟩
  · rw [hret]
    apply Nat.eq_of_testBit_eq
    intro i
    simp only [Nat.testBit_and]
    cases target.testBit i <;> cases (waitLoop target wakes s 0).1.testBit i <;> rfl
  · rw [hret, haccum]
  · rw [hret, haccum]
  · intro h
    rw [htimed] at h
    have h2 := waitLoop_full_of_not_timedOut target wakes s 0 h
    rw [hret, land_comm]
    exact h2
  · intro h
    rw [hret] at h
    rw [haccum, htimed]
    refine ⟨?_, h⟩
    by_contra hne
    have hfalse : (waitLoop target wakes s 0).2.2 = false := by
      cases hv : (waitLoop target wakes s 0).2.2
      · rfl
      · exact absurd hv hne
    have h2 := waitLoop_full_of_not_timedOut target wakes s 0 hfalse
    rw [land_comm] at h2
    rw [h] at h2
    exact htarget h2.symm
  · intro h
    rw [hret]
    rw [haccum] at h
    exact h.2

/-- Witness for ulWaitForNotifyBits_C1 at a concrete input: a single wake
delivering bits 0x3 against target mask 0x1 completes without timeout, so
the call returns the full mask. -/
theorem ulWaitForNotifyBits_C1_witness :
    (ulWaitForNotifyBits 1 [Wake.notif 3 false] ⟨0, false⟩).ret = 1 := by
  have h := ulWaitForNotifyBits_C1 1 [Wake.notif 3 false] ⟨0, false⟩ (by decide)
  exact h.2.2.2.1 (by decide)

/-- Boolean helper: a conjunction with a negation on the right. -/
lemma and_not_eq_true (a b : Bool) (h : (a && !b) = true) : a = true ∧ b = false := by
  cases a <;> cases b <;> simp_all

/-- C2: notification bits delivered during a waitAll call that lie outside
the target mask are never lost.  Every wake clears only bits inside the
target mask, so any out-of-mask bit pending at entry and any out-of-mask
bit observed in the accumulator is still in the notification value when
the call returns, and when any out-of-mask bit was observed the call
self-notifies (eNoAction), leaving the slot pending so a subsequent,
differently-targeted wait observes those bits. -/
theorem ulWaitForNotifyBits_C2 (target : Nat) (wakes : List Wake) (s : TaskNotify) :
    clearBits s.val target &&& (ulWaitForNotifyBits target wakes s).state.val
      = clearBits s.val target ∧
    clearBits (ulWaitForNotifyBits target wakes s).accum target &&&
        (ulWaitForNotifyBits target wakes s).state.val
      = clearBits (ulWaitForNotifyBits target wakes s).accum target ∧
    (clearBits (ulWaitForNotifyBits target wakes s).accum target ≠ 0 →
      (ulWaitForNotifyBits target wakes s).state.received = true) := by
  have hval : (ulWaitForNotifyBits target wakes s).state.val
      = (waitLoop target wakes s 0).2.1.val := by
    simp only [ulWaitForNotifyBits, xTaskNotifyIndexed_eNoAction]
    split <;> rfl
  have haccum : (ulWaitForNotifyBits target wakes s).accum
      = (waitLoop target wakes s 0).1 := rfl
  have hkey := waitLoop_out_bits target wakes s 0 (by intro j _ hj; simp at hj)
  refine ⟨?_, ?_, ?_⟩
  · rw [hval, land_eq_left_iff]
    intro i hi
    rw [clearBits_testBit] at hi
    obtain ⟨h1, h2⟩ := and_not_eq_true _ _ hi
    exact (hkey i h2).2 h1
  · rw [hval, haccum, land_eq_left_iff]
    intro i hi
    rw [clearBits_testBit] at hi
    obtain ⟨h1, h2⟩ := and_not_eq_true _ _ hi
    exact (hkey i h2).1 h1
  · intro h
    have hpos : clearBits (ulWaitForNotifyBits target wakes s).accum target > 0 :=
      Nat.pos_of_ne_zero h
    rw [haccum] at hpos
    show (ulWaitForNotifyBits target wakes s).state.received = true
    simp only [ulWaitForNotifyBits]
    rw [if_pos hpos]
    rfl

/-- Witness for ulWaitForNotifyBits_C2 at a concrete input: a wake
delivering bits 0x3 against target mask 0x1 observes the out-of-mask bit
0x2, so the call leaves the slot pending (self-notified). -/
theorem ulWaitForNotifyBits_C2_witness :
    (ulWaitForNotifyBits 1 [Wake.notif 3 false] ⟨0, false⟩).state.received = true :=
  (ulWaitForNotifyBits_C2 1 [Wake.notif 3 false] ⟨0, false⟩).2.2 (by decide)

/-- C4: vHandleMxStatusUpdate maps every possible cached status value to a
link transition: StationUp, StationGotIp and ApUp set the link up; None,
StationDown and ApDown set the link down; any value outside the six
recognized values warns and fail-safes to setting the link up, so no
status value leaves the interface untouched or ambiguous. -/
theorem vHandleMxStatusUpdate_C4 (status : Nat) :
    ((vHandleMxStatusUpdate status).action = LinkAction.up ∨
      (vHandleMxStatusUpdate status).action = LinkAction.down) ∧
    ((vHandleMxStatusUpdate status).action = LinkAction.up ↔
      status = MX_STATUS_STA_UP ∨ status = MX_STATUS_STA_GOT_IP ∨
      status = MX_STATUS_AP_UP ∨ ¬ isRecognizedMxStatus status) ∧
    ((vHandleMxStatusUpdate status).action = LinkAction.down ↔
      status = MX_STATUS_NONE ∨ status = MX_STATUS_STA_DOWN ∨
      status = MX_STATUS_AP_DOWN) ∧
    ((vHandleMxStatusUpdate status).warned = true ↔
      ¬ isRecognizedMxStatus status) := by
  unfold vHandleMxStatusUpdate isRecognizedMxStatus
  unfold MX_STATUS_NONE MX_STATUS_STA_DOWN MX_STATUS_STA_UP
  unfold MX_STATUS_STA_GOT_IP MX_STATUS_AP_DOWN MX_STATUS_AP_UP
  split_ifs with h1 h2 <;>
    refine ⟨?_, ?_, ?_, ?_⟩ <;>
    simp_all <;>
    omega

/-- Witness for vHandleMxStatusUpdate_C4: the unrecognized status value 9
warns and fail-safes to bringing the link up. -/
theorem vHandleMxStatusUpdate_C4_witness :
    (vHandleMxStatusUpdate 9).action = LinkAction.up ∧
    (vHandleMxStatusUpdate 9).warned = true :=
  ⟨(vHandleMxStatusUpdate_C4 9).2.1.mpr (Or.inr (Or.inr (Or.inr (by decide)))),
    (vHandleMxStatusUpdate_C4 9).2.2.2.mpr (by decide)⟩

/-- C5: the claim fails on the code.  With the cached status equal to
StationUp across two consecutive wakes whose notification value carries
MX_STATUS_UPDATE_BIT (two onStatusChanged deliveries of the same value),
the handler is invoked on both wakes, because net_main never assigns
xLastMxStatus after initializing it to MX_STATUS_NONE at line 714, so the
suppression guard compares against None forever and redundant status
handling is not suppressed. -/
theorem statusUpdateStep_C5_not_suppressed :
    (statusUpdateStep MX_STATUS_UPDATE_BIT
        ⟨MX_STATUS_STA_UP, MX_STATUS_NONE⟩).1 = true ∧
    (statusUpdateStep MX_STATUS_UPDATE_BIT
        (statusUpdateStep MX_STATUS_UPDATE_BIT
          ⟨MX_STATUS_STA_UP, MX_STATUS_NONE⟩).2).1 = true := by
  decide

/-- C6: calling xConnectToAP while the cached status is neither None nor
StationDown is a no-op: no mode set, no configuration read and no
association transport call is issued, the status field is unchanged, and
the call returns the already-connected result. -/
theorem xConnectToAP_C6 (status : Nat) (env : ConnectEnv)
    (h1 : status ≠ MX_STATUS_NONE) (h2 : status ≠ MX_STATUS_STA_DOWN) :
    (xConnectToAP status env).calls = [] ∧
    (xConnectToAP status env).status = status ∧
    (xConnectToAP status env).ret = true := by
  have hcond : ¬ (status = MX_STATUS_NONE ∨ status = MX_STATUS_STA_DOWN) := by
    intro h
    rcases h with h | h
    · exact h1 h
    · exact h2 h
  unfold xConnectToAP
  rw [if_neg hcond]
  refine ⟨rfl, rfl, ?_⟩
  have hge : status ≥ MX_STATUS_STA_UP := by
    unfold MX_STATUS_NONE at h1
    unfold MX_STATUS_STA_DOWN at h2
    unfold MX_STATUS_STA_UP
    omega
  exact decide_eq_true hge

/-- Witness for xConnectToAP_C6: connect while the status is StationGotIp
returns success with no transport call and the status unchanged. -/
theorem xConnectToAP_C6_witness :
    (xConnectToAP MX_STATUS_STA_GOT_IP ⟨0, none, none, 0, 0⟩).calls = [] ∧
    (xConnectToAP MX_STATUS_STA_GOT_IP ⟨0, none, none, 0, 0⟩).status
      = MX_STATUS_STA_GOT_IP ∧
    (xConnectToAP MX_STATUS_STA_GOT_IP ⟨0, none, none, 0, 0⟩).ret = true :=
  xConnectToAP_C6 MX_STATUS_STA_GOT_IP ⟨0, none, none, 0, 0⟩ (by decide) (by decide)

/-- C7: when the association transport call fails, in particular after the
configuration store returned absent or empty entries that the transport
rejected, xConnectToAP logs and returns failure without mutating the
cached status and without issuing the bounded station-up wait; the model
is a total function, so the call returns rather than crashing, and the
loop retries on its next wake. -/
theorem xConnectToAP_C7 (status : Nat) (env : ConnectEnv)
    (h1 : status = MX_STATUS_NONE ∨ status = MX_STATUS_STA_DOWN)
    (h2 : env.connectErr ≠ IPC_SUCCESS) :
    (xConnectToAP status env).status = status ∧
    (xConnectToAP status env).ret = false ∧
    TransportOp.waitForStaUp ∉ (xConnectToAP status env).calls := by
  have hlt : ¬ status ≥ MX_STATUS_STA_UP := by
    unfold MX_STATUS_NONE MX_STATUS_STA_DOWN at h1
    unfold MX_STATUS_STA_UP
    omega
  simp only [xConnectToAP, if_pos h1, if_pos h2]
  refine ⟨trivial, decide_eq_false hlt, ?_⟩
  simp

/-- Witness for xConnectToAP_C7: absent configuration entries with a
rejecting transport leave the status at None and return failure. -/
theorem xConnectToAP_C7_witness :
    (xConnectToAP MX_STATUS_NONE ⟨0, none, none, 1, 0⟩).status = MX_STATUS_NONE ∧
    (xConnectToAP MX_STATUS_NONE ⟨0, none, none, 1, 0⟩).ret = false ∧
    TransportOp.waitForStaUp ∉ (xConnectToAP MX_STATUS_NONE ⟨0, none, none, 1, 0⟩).calls :=
  xConnectToAP_C7 MX_STATUS_NONE ⟨0, none, none, 1, 0⟩ (Or.inl rfl) (by decide)

/-- C8 counterexample: a wake carrying the reconnect bit while the cached
status is StationGotIp, and still unchanged when xConnectToAP runs,
issues the bounded disconnect but no fresh association attempt: the
transport operations of the iteration are exactly the disconnect, with no
mx_Connect call, contrary to the claim that the iteration produces a
disconnect followed by a fresh association attempt. -/
theorem reconnectStep_C8_counterexample :
    (reconnectStep ASYNC_REQUEST_RECONNECT_BIT MX_STATUS_STA_GOT_IP
        ⟨0, none, none, 0, 0⟩).2 = [TransportOp.disconnect] := by
  decide

/-- C8 amended: when the wake value carries the reconnect bit set by
net_request_reconnect, the iteration issues the bounded best-effort
disconnect and then unconditionally calls xConnectToAP; the fresh
association (mode set, configuration reads, mx_Connect) is issued
precisely when the cached status is None or StationDown at that point,
for example once the StationDown update caused by the disconnect has been
delivered, and otherwise the connect call is a no-op; and
net_request_reconnect on the published handle sets exactly the reconnect
bit. -/
theorem reconnectStep_C8_amended (xResult status : Nat) (env : ConnectEnv)
    (snot : TaskNotify)
    (h : xResult &&& ASYNC_REQUEST_RECONNECT_BIT ≠ 0) :
    (reconnectStep xResult status env).2
      = TransportOp.disconnect :: (xConnectToAP status env).calls ∧
    ((status = MX_STATUS_NONE ∨ status = MX_STATUS_STA_DOWN) →
      TransportOp.connectAP env.ssid env.psk ∈ (reconnectStep xResult status env).2) ∧
    ((status ≠ MX_STATUS_NONE ∧ status ≠ MX_STATUS_STA_DOWN) →
      (reconnectStep xResult status env).2 = [TransportOp.disconnect]) ∧
    net_request_reconnect (some snot)
      = (true, some ⟨snot.val ||| ASYNC_REQUEST_RECONNECT_BIT, true⟩) := by
  have hstep : (reconnectStep xResult status env).2
      = TransportOp.disconnect :: (xConnectToAP status env).calls := by
    simp only [reconnectStep, if_pos h]
  refine ⟨hstep, ?_, ?_, rfl⟩
  · intro hs
    rw [hstep]
    simp only [xConnectToAP, if_pos hs]
    split_ifs with he <;> simp
  · intro hne
    rw [hstep]
    have hcond : ¬ (status = MX_STATUS_NONE ∨ status = MX_STATUS_STA_DOWN) := by
      intro hx
      rcases hx with hx | hx
      · exact hne.1 hx
      · exact hne.2 hx
    simp only [xConnectToAP, if_neg hcond]

/-- Witness for reconnectStep_C8_amended: once the status has dropped to
StationDown, the reconnect iteration issues the fresh association. -/
theorem reconnectStep_C8_amended_witness :
    TransportOp.connectAP (some 7) (some 8)
      ∈ (reconnectStep 0x80 MX_STATUS_STA_DOWN ⟨0, some 7, some 8, 0, 2⟩).2 :=
  (reconnectStep_C8_amended 0x80 MX_STATUS_STA_DOWN ⟨0, some 7, some 8, 0, 2⟩
    ⟨0, false⟩ (by decide)).2.1 (Or.inr rfl)

/-- C9: the claim fails on the code.  Because vLwipStatusCallback resets
xLastAddr.addr to zero at every entry, an invocation whose interface
address equals the address observed at the previous invocation (here 42
on both calls, with unchanged flags 0x05) still emits
NET_LWIP_IP_CHANGE_BIT, so the IpAddressChanged flag is not emitted only
on an address change. -/
theorem vLwipStatusCallback_C9_ip_not_deduplicated :
    (vLwipStatusCallback 5 42 (vLwipStatusCallback 5 42 ⟨0, 5⟩).2).1
      = NET_LWIP_IP_CHANGE_BIT := by
  decide

/-- C10: when both the administrative flag and the link flag change
relative to the last-observed flags in the same invocation, the
administrative branch takes priority: the emitted value carries
NET_LWIP_IFUP_BIT or NET_LWIP_IFDOWN_BIT according to the new
administrative state and carries neither NET_LWIP_LINK_UP_BIT nor
NET_LWIP_LINK_DOWN_BIT. -/
theorem vLwipStatusCallback_C10 (flags addr : Nat) (st : LwipCbState)
    (hup : (flags ^^^ st.lastFlags) &&& NETIF_FLAG_UP ≠ 0)
    (hlink : (flags ^^^ st.lastFlags) &&& NETIF_FLAG_LINK_UP ≠ 0) :
    ((vLwipStatusCallback flags addr st).1 &&& NET_LWIP_LINK_UP_BIT = 0 ∧
      (vLwipStatusCallback flags addr st).1 &&& NET_LWIP_LINK_DOWN_BIT = 0) ∧
    (flags &&& NETIF_FLAG_UP ≠ 0 →
      (vLwipStatusCallback flags addr st).1 &&& NET_LWIP_IFUP_BIT
        = NET_LWIP_IFUP_BIT) ∧
    (flags &&& NETIF_FLAG_UP = 0 →
      (vLwipStatusCallback flags addr st).1 &&& NET_LWIP_IFDOWN_BIT
        = NET_LWIP_IFDOWN_BIT) := by
  simp only [vLwipStatusCallback, if_pos hup]
  by_cases hfu : flags &&& NETIF_FLAG_UP ≠ 0
  · rw [if_pos hfu]
    by_cases ha : addr ≠ (0 : Nat)
    · rw [if_pos ha]
      exact ⟨by decide, fun _ => by decide, fun hz => absurd hz hfu⟩
    · rw [if_neg ha]
      exact ⟨by decide, fun _ => by decide, fun hz => absurd hz hfu⟩
  · rw [if_neg hfu]
    by_cases ha : addr ≠ (0 : Nat)
    · rw [if_pos ha]
      exact ⟨by decide, fun hnz => absurd hnz hfu, fun _ => by decide⟩
    · rw [if_neg ha]
      exact ⟨by decide, fun hnz => absurd hnz hfu, fun _ => by decide⟩

/-- Witness for vLwipStatusCallback_C10: the first observation of flags
0x05 from last-observed flags zero changes both bits and emits only the
interface-up flag among the four transition flags. -/
theorem vLwipStatusCallback_C10_witness :
    ((vLwipStatusCallback 5 0 ⟨0, 0⟩).1 &&& NET_LWIP_LINK_UP_BIT = 0 ∧
      (vLwipStatusCallback 5 0 ⟨0, 0⟩).1 &&& NET_LWIP_LINK_DOWN_BIT = 0) ∧
    (vLwipStatusCallback 5 0 ⟨0, 0⟩).1 &&& NET_LWIP_IFUP_BIT = NET_LWIP_IFUP_BIT :=
  ⟨(vLwipStatusCallback_C10 5 0 ⟨0, 0⟩ (by decide) (by decide)).1,
    (vLwipStatusCallback_C10 5 0 ⟨0, 0⟩ (by decide) (by decide)).2.1 (by decide)⟩

/-- C3: one reconciliation pass, from any (link flag, address assigned)
pair and independent of which notification bit caused the wake, since the
pass reads only the current interface state, re-establishes a stable
combination: afterwards a link flagged up has address acquisition active
and a link flagged down has no address assigned; the two transient
combinations are corrected as the claim states (down with an address
releases and stops, up without an address starts acquisition).  The
hypothesis records that an address can only be assigned while acquisition
had been started. -/
theorem reconcilePass_C3 (st : IfaceState)
    (hinv : st.addrAssigned = true → st.dhcpActive = true) :
    ((reconcilePass st).linkFlagUp = true → (reconcilePass st).dhcpActive = true) ∧
    ((reconcilePass st).linkFlagUp = false →
      (reconcilePass st).addrAssigned = false) ∧
    (st.linkFlagUp = false ∧ st.addrAssigned = true →
      (reconcilePass st).addrAssigned = false ∧
        (reconcilePass st).dhcpActive = false) ∧
    (st.linkFlagUp = true ∧ st.addrAssigned = false →
      (reconcilePass st).dhcpActive = true) := by
  rcases st with ⟨l, a, d⟩
  cases l <;> cases a <;> cases d <;> simp_all [reconcilePass]

/-- Witness for reconcilePass_C3: link flagged down with an address still
assigned releases the address and stops acquisition in one pass. -/
theorem reconcilePass_C3_witness :
    (reconcilePass ⟨false, true, true⟩).addrAssigned = false ∧
    (reconcilePass ⟨false, true, true⟩).dhcpActive = false :=
  (reconcilePass_C3 ⟨false, true, true⟩ (fun _ => rfl)).2.2.1 (by decide)

end NetMgr
